import Mathlib

/-!
# Verification of the `7dias.py` water-level charting script

Shallow embedding of `src/src/7dias.py`: a batch script that reads a list of
river-gauge station codes, fetches per-station metadata and a 7-day measurement
series from a remote XML API, cleans the series, and renders one chart image per
station, with per-station error isolation.

External effects (HTTP, pandas parsing, matplotlib, the file system) are
modelled explicitly: fetch outcomes are oracle inputs of type `Except`/lists,
charts are a record of everything the rendering code draws, and the file system
is a map updated by `savefig`.
-/

namespace Alertas

/-! ## Input loading (lines 53-66 of `7dias.py`) -/

/-- Python `str.strip()` with no argument: remove leading and trailing
whitespace characters. -/
def strip (s : String) : String :=
  String.mk ((s.data.dropWhile Char.isWhitespace).reverse.dropWhile
    Char.isWhitespace).reverse

/-- Python `str.startswith(p)`: the raw string (not the stripped one) begins
with `p`. -/
def startswith (s p : String) : Bool := p.data.isPrefixOf s.data

/-- The station-list comprehension (lines 55-59):
`[linha.strip() for linha in arquivo if linha.strip() and not linha.startswith('#')]`.
Each input string is one line of the file. -/
def parseLista (lines : List String) : List String :=
  lines.filterMap fun linha =>
    if strip linha ≠ "" ∧ ¬ startswith linha "#" then some (strip linha) else none

/-- The spec's words for the loader (§4.1/§6): take the lines that are not blank,
drop the ones starting with the comment marker, and strip surrounding whitespace
from each. Stated independently of `parseLista` for comparison. -/
def listaSpecModel (lines : List String) : List String :=
  ((lines.filter fun l => strip l ≠ "").filter fun l => ¬ startswith l "#").map
    fun l => strip l

/-! ## Dates and the measurement URL (lines 28-31, 95, 98) -/

/-- Civil-calendar fields `(year, month, day)` of a day count in the proleptic
Gregorian calendar, where day `0` is 0000-03-01 (so 1970-01-01 is day `719468`).
Models Python `datetime.date` arithmetic at day granularity. -/
def civilFromDays (z : Nat) : Nat × Nat × Nat :=
  let era := z / 146097
  let doe := z % 146097
  let yoe := (doe - doe / 1460 + doe / 36524 - doe / 146096) / 365
  let doy := doe - (365 * yoe + yoe / 4 - yoe / 100)
  let mp := (5 * doy + 2) / 153
  let d := doy - (153 * mp + 2) / 5 + 1
  let m := if mp < 10 then mp + 3 else mp - 9
  (yoe + era * 400 + (if m ≤ 2 then 1 else 0), m, d)

/-- A date as days since 1970-01-01; `datetime.timedelta(days=k)` is `+ k`. -/
def civilOfEpochDay (n : Nat) : Nat × Nat × Nat :=
  civilFromDays (n + 719468)

/-- Two zero-padded decimal digits, as `strftime` `%d` / `%m` print a day or
month number (always below 100). -/
def pad2 (n : Nat) : String :=
  String.mk [Nat.digitChar (n / 10 % 10), Nat.digitChar (n % 10)]

/-- Four decimal digits, as `strftime` `%Y` prints a year in 1000..9999. -/
def pad4 (n : Nat) : String :=
  String.mk [Nat.digitChar (n / 1000 % 10), Nat.digitChar (n / 100 % 10),
    Nat.digitChar (n / 10 % 10), Nat.digitChar (n % 10)]

/-- Model of `date.strftime` with format `%d-%m-%Y`, for an epoch-day date. -/
def strftimeDMY (n : Nat) : String :=
  let c := civilOfEpochDay n
  pad2 c.2.2 ++ "-" ++ pad2 c.2.1 ++ "-" ++ pad4 c.1

/-- Line 30: `data_fim_consulta = (hoje + timedelta(days=1)).strftime('%d-%m-%Y')`. -/
def dataFimConsulta (hoje : Nat) : String := strftimeDMY (hoje + 1)

/-- Line 31: `data_inicio_consulta = (hoje - timedelta(days=7)).strftime('%d-%m-%Y')`
(`hoje` is assumed to be at least 7 epoch days, i.e. any real date). -/
def dataInicioConsulta (hoje : Nat) : String := strftimeDMY (hoje - 7)

/-- Line 81/98: the two request timeouts, in seconds. -/
def timeoutInventario : Nat := 30

def timeoutDados : Nat := 60

/-- Line 95: the measurement-series request URL. -/
def urlDados (codigo : String) (hoje : Nat) : String :=
  "https://telemetriaws1.ana.gov.br/ServiceANA.asmx/DadosHidrometeorologicos?codEstacao="
    ++ codigo ++ "&dataInicio=" ++ dataInicioConsulta hoje
    ++ "&dataFim=" ++ dataFimConsulta hoje

/-! ## Data model of the per-station loop (lines 75-170) -/

/-- One row of the parsed inventory table (line 83); the relevant column is
`Nome`. A missing `Nome` column or a failed parse is the `Except.error` path. -/
structure InvRow where
  nomeEst : String
  deriving Repr, DecidableEq

/-- One row of the parsed measurement table (line 100), after
`pd.to_datetime` (line 107): a nullable timestamp (epoch minutes, say)
and a nullable level. An unparseable response is the `Except.error` path. -/
structure DataRow where
  dataHora : Option Nat
  nivel : Option Int
  deriving Repr, DecidableEq

/-- One row of `cotas_referencia.txt` (lines 43-46), keyed by station code. -/
structure RefRow where
  alerta : Int
  inundacao : Int
  deriving Repr, DecidableEq

/-- The loaded reference table: station code to thresholds, first match wins. -/
abbrev RefTable := List (String × RefRow)

/-- Oracle for one station's two HTTP round-trips: the result of
fetch+decode+parse of the inventory response (lines 81-83) and of the
measurement response (lines 98-100 and the `to_datetime` at 107). `error e`
means that step raised exception `e`. -/
structure FetchResult where
  inv : Except String (List InvRow)
  dados : Except String (List DataRow)
  deriving Repr

/-- Log entries the script emits, each tagged with the station code where the
source logs one (lines 61, 65, 88, 91, 103, 117, 169). -/
inductive LogEvent where
  | listaNaoEncontrada
  | listaVazia
  | invNotFound (codigo : String)
  | invError (codigo : String)
  | semDados (codigo : String)
  | semDadosValidos (codigo : String)
  | erroCritico (codigo : String)
  deriving Repr, DecidableEq

/-- The HTTP requests the loop issues, in order. -/
inductive FetchAttempt where
  | inventario (codigo : String)
  | dados (codigo : String)
  deriving Repr, DecidableEq

/-- Lines 109-114: drop rows with a null `DataHora` or null `Nivel`, rename
`Nivel` to `Cota` (the second component of each pair), index by `DataHora`
and sort ascending by the index. -/
def clean (rows : List DataRow) : List (Nat × Int) :=
  (rows.filterMap fun r =>
    match r.dataHora, r.nivel with
    | some t, some n => some (t, n)
    | _, _ => none).insertionSort fun a b => a.1 ≤ b.1

/-- Line 145: the chart title string. -/
def mkTitle (codigo nome : String) : String :=
  "Estação " ++ codigo ++ ": " ++ nome ++ " - Cotas dos últimos 7 dias"

/-- Line 135: label of the alert line. -/
def alertaLabel (a : Int) : String := "Alerta (" ++ toString a ++ " cm)"

/-- Line 138: label of the flood line. -/
def inundacaoLabel (a : Int) : String := "Inundação (" ++ toString a ++ " cm)"

/-- Line 69: the fixed output directory. -/
def diretorioGraficos : String := "Graficos_Saida"

/-- Line 162: `os.path.join(diretorio_graficos, f'{codigo}.png')`. -/
def nomeArquivoGrafico (codigo : String) : String :=
  diretorioGraficos ++ "/" ++ codigo ++ ".png"

/-- Everything the rendering block (lines 122-165) draws into one figure:
the data line, the optional pair of horizontal threshold lines with their
labels, the optional legend, the title, and the target file name. -/
structure Chart where
  codigo : String
  titulo : String
  series : List (Nat × Int)
  hlines : List (Int × String)
  legend : Option (List String)
  fileName : String
  deriving Repr, DecidableEq

/-- Lines 126-165: build the figure for a cleaned non-empty series. The
threshold lines and the legend are drawn only when the code is present in the
reference table (line 129). -/
def renderChart (cotasRef : RefTable) (codigo nome : String)
    (series : List (Nat × Int)) : Chart :=
  match cotasRef.lookup codigo with
  | some r =>
      { codigo := codigo
        titulo := mkTitle codigo nome
        series := series
        hlines := [(r.alerta, alertaLabel r.alerta),
                   (r.inundacao, inundacaoLabel r.inundacao)]
        legend := some ["Nível do rio", alertaLabel r.alerta,
                        inundacaoLabel r.inundacao]
        fileName := nomeArquivoGrafico codigo }
  | none =>
      { codigo := codigo
        titulo := mkTitle codigo nome
        series := series
        hlines := []
        legend := none
        fileName := nomeArquivoGrafico codigo }

/-- Result of one iteration of the station loop. -/
structure StepResult where
  nomeDepois : Option String
  attempts : List FetchAttempt
  logs : List LogEvent
  chart : Option Chart
  deriving Repr, DecidableEq

/-- The inventory step (lines 80-91). `nome` models the Python variable
`nome`, `none` while unbound: it is assigned only at line 86, on a successful
non-empty inventory lookup, and is otherwise left at its previous value
(warning at 88, error log at 91). -/
def invResolve (nome : Option String) (codigo : String)
    (inv : Except String (List InvRow)) : Option String × List LogEvent :=
  match inv with
  | .error _ => (nome, [.invError codigo])
  | .ok [] => (nome, [.invNotFound codigo])
  | .ok (r :: _) => (some r.nomeEst, [])

/-- The second `try` block (lines 97-169), given the `nome` binding left by
the inventory step: the empty-response and empty-after-cleaning early `continue`s
(lines 102-104, 116-118), then rendering; reading an unbound `nome` at line 145
is the error caught at line 168. -/
def dadosStep (cotasRef : RefTable) (nome1 : Option String) (codigo : String)
    (dados : Except String (List DataRow)) : List LogEvent × Option Chart :=
  match dados with
  | .error _ => ([.erroCritico codigo], none)
  | .ok rows =>
      if rows.isEmpty then ([.semDados codigo], none)
      else
        let s := clean rows
        if s.isEmpty then ([.semDadosValidos codigo], none)
        else
          match nome1 with
          | none => ([.erroCritico codigo], none)
          | some nm => ([], some (renderChart cotasRef codigo nm s))

/-- One iteration of the loop body (lines 75-170) for station `codigo`:
the inventory `try` block, then the data/rendering `try` block. Both fetches
are always attempted; each `try` block catches every exception of its body,
so an iteration always yields a `StepResult` and carries the (possibly stale)
`nome` binding to the next iteration. -/
def processStation (cotasRef : RefTable) (nome : Option String)
    (codigo : String) (fr : FetchResult) : StepResult :=
  let invStep := invResolve nome codigo fr.inv
  let d := dadosStep cotasRef invStep.1 codigo fr.dados
  ⟨invStep.1, [.inventario codigo, .dados codigo], invStep.2 ++ d.1, d.2⟩

/-- The main loop over `lista_estacoes` (line 75), threading the `nome`
variable across iterations and accumulating attempts, logs and saved charts. -/
def runLoop (cotasRef : RefTable) (nome : Option String) :
    List (String × FetchResult) → List FetchAttempt × List LogEvent × List Chart
  | [] => ([], [], [])
  | (c, fr) :: rest =>
      let st := processStation cotasRef nome c fr
      let r := runLoop cotasRef st.nomeDepois rest
      (st.attempts ++ r.1, st.logs ++ r.2.1, st.chart.toList ++ r.2.2)

/-- Outcome of a whole run: `fatal` models the `exit()` calls at lines 62/66,
reached before any station is processed; `normal` is the process reaching the
end of the loop. -/
inductive RunOutcome where
  | fatal (logs : List LogEvent)
  | normal (attempts : List FetchAttempt) (logs : List LogEvent)
      (charts : List Chart)
  deriving Repr, DecidableEq

/-- The program from line 53 on: load `lista.txt` (`none` models
`FileNotFoundError`), exit on a missing file or an empty list, otherwise run
the loop with `nome` initially unbound. -/
def runProgram (cotasRef : RefTable) (arquivo : Option (List String))
    (oracle : String → FetchResult) : RunOutcome :=
  match arquivo with
  | none => .fatal [.listaNaoEncontrada]
  | some lines =>
      let lista := parseLista lines
      if lista.isEmpty then .fatal [.listaVazia]
      else
        let r := runLoop cotasRef none (lista.map fun c => (c, oracle c))
        .normal r.1 r.2.1 r.2.2

/-! ## File-system model (for `os.makedirs` and `plt.savefig`) -/

/-- Model of `os.makedirs(d, exist_ok=True)` (line 70) on a set of existing directories. -/
def makedirs (dirs : List String) (d : String) : List String :=
  if d ∈ dirs then dirs else d :: dirs

/-- Model of `plt.savefig(path)` (line 165) on a path-indexed store: writing to an
existing path replaces its content. -/
def saveFig (fs : String → Option Chart) (ch : Chart) : String → Option Chart :=
  fun p => if p = ch.fileName then some ch else fs p

/-! ## Helper lemmas -/

theorem processStation_attempts_eq (cotasRef : RefTable) (nome : Option String)
    (codigo : String) (fr : FetchResult) :
    (processStation cotasRef nome codigo fr).attempts =
      [FetchAttempt.inventario codigo, FetchAttempt.dados codigo] := rfl

theorem runLoop_attempts_eq (cotasRef : RefTable) :
    ∀ (stations : List (String × FetchResult)) (nome : Option String),
      (runLoop cotasRef nome stations).1 =
        stations.flatMap fun s => [FetchAttempt.inventario s.1, FetchAttempt.dados s.1]
  | [], _ => rfl
  | (c, fr) :: rest, nome => by
      simp only [runLoop, processStation_attempts_eq, List.flatMap_cons,
        runLoop_attempts_eq cotasRef rest]

theorem invError_mem_logs (cotasRef : RefTable) (nome : Option String)
    (codigo : String) (fr : FetchResult) (e : String)
    (h : fr.inv = Except.error e) :
    LogEvent.invError codigo ∈ (processStation cotasRef nome codigo fr).logs := by
  simp [processStation, invResolve, h]

theorem invNotFound_mem_logs (cotasRef : RefTable) (nome : Option String)
    (codigo : String) (fr : FetchResult)
    (h : fr.inv = Except.ok []) :
    LogEvent.invNotFound codigo ∈ (processStation cotasRef nome codigo fr).logs := by
  simp [processStation, invResolve, h]

theorem erroCritico_mem_logs (cotasRef : RefTable) (nome : Option String)
    (codigo : String) (fr : FetchResult) (e : String)
    (h : fr.dados = Except.error e) :
    LogEvent.erroCritico codigo ∈ (processStation cotasRef nome codigo fr).logs := by
  simp [processStation, dadosStep, h]

theorem renderChart_titulo (cotasRef : RefTable) (codigo nome : String)
    (s : List (Nat × Int)) :
    (renderChart cotasRef codigo nome s).titulo = mkTitle codigo nome := by
  unfold renderChart; split <;> rfl

theorem renderChart_fileName (cotasRef : RefTable) (codigo nome : String)
    (s : List (Nat × Int)) :
    (renderChart cotasRef codigo nome s).fileName = nomeArquivoGrafico codigo := by
  unfold renderChart; split <;> rfl

/-- A log entry that every possible `nome` binding produces for one station of
the list is in the logs of the whole run. -/
theorem mem_runLoop_logs (cotasRef : RefTable) {c : String} {fr : FetchResult}
    {ev : LogEvent}
    (hev : ∀ nm, ev ∈ (processStation cotasRef nm c fr).logs) :
    ∀ (stations : List (String × FetchResult)) (nome : Option String),
      (c, fr) ∈ stations → ev ∈ (runLoop cotasRef nome stations).2.1
  | (c2, fr2) :: rest, nome, hmem => by
      simp only [runLoop, List.mem_append]
      rcases List.mem_cons.1 hmem with heq | htail
      · injection heq with h1 h2
        subst h1; subst h2
        exact Or.inl (hev nome)
      · exact Or.inr (mem_runLoop_logs cotasRef hev rest _ htail)

/-! ## Claim theorems -/

/-- C1: for every station list, the run loop issues the metadata and the
series fetch for every code, strictly one station at a time in input order
(the attempt trace is exactly the input list, two attempts per code,
regardless of any failures), and an exception in a station's inventory fetch
or in its data fetch/parse/clean/render step is caught and logged with the
station code while the loop still reaches every later station. -/
theorem runLoop_processes_every_station (cotasRef : RefTable)
    (nome : Option String) (stations : List (String × FetchResult)) :
    (runLoop cotasRef nome stations).1 =
      stations.flatMap (fun s => [FetchAttempt.inventario s.1, FetchAttempt.dados s.1])
    ∧ ∀ c fr, (c, fr) ∈ stations →
        ((∃ e, fr.inv = Except.error e) →
          LogEvent.invError c ∈ (runLoop cotasRef nome stations).2.1)
        ∧ ((∃ e, fr.dados = Except.error e) →
          LogEvent.erroCritico c ∈ (runLoop cotasRef nome stations).2.1) := by
  refine ⟨runLoop_attempts_eq cotasRef stations nome, fun c fr hmem => ⟨?_, ?_⟩⟩
  · rintro ⟨e, he⟩
    exact mem_runLoop_logs cotasRef
      (fun nm => invError_mem_logs cotasRef nm c fr e he) stations nome hmem
  · rintro ⟨e, he⟩
    exact mem_runLoop_logs cotasRef
      (fun nm => erroCritico_mem_logs cotasRef nm c fr e he) stations nome hmem

/-- C1 witness: a two-station run whose first station fails both fetches
still logs both failures for the first code and attempts all four fetches. -/
theorem runLoop_processes_every_station_witness :
    (runLoop [] none
        [("11111111", ⟨Except.error "net", Except.error "net"⟩),
         ("22222222", ⟨Except.ok [], Except.ok []⟩)]).1 =
      [FetchAttempt.inventario "11111111", FetchAttempt.dados "11111111",
       FetchAttempt.inventario "22222222", FetchAttempt.dados "22222222"]
    ∧ LogEvent.invError "11111111" ∈
        (runLoop [] none
          [("11111111", ⟨Except.error "net", Except.error "net"⟩),
           ("22222222", ⟨Except.ok [], Except.ok []⟩)]).2.1
    ∧ LogEvent.erroCritico "11111111" ∈
        (runLoop [] none
          [("11111111", ⟨Except.error "net", Except.error "net"⟩),
           ("22222222", ⟨Except.ok [], Except.ok []⟩)]).2.1 := by
  have h := runLoop_processes_every_station [] none
    [("11111111", ⟨Except.error "net", Except.error "net"⟩),
     ("22222222", ⟨Except.ok [], Except.ok []⟩)]
  have h2 := h.2 "11111111" ⟨Except.error "net", Except.error "net"⟩
    (List.mem_cons_self _ _)
  exact ⟨h.1, h2.1 ⟨"net", rfl⟩, h2.2 ⟨"net", rfl⟩⟩

/-- C2: cleaning keeps exactly the rows whose timestamp and level are both
non-null (as timestamp-level pairs, the level renamed to the `Cota`
component), and the result is in non-decreasing timestamp order; every
surviving entry carries an actual (non-null) timestamp and level of some
input row. -/
theorem clean_drops_nulls_and_sorts (rows : List DataRow) :
    List.Pairwise (fun a b : Nat × Int => a.1 ≤ b.1) (clean rows)
    ∧ (clean rows).Perm (rows.filterMap fun r =>
        match r.dataHora, r.nivel with
        | some t, some n => some (t, n)
        | _, _ => none)
    ∧ ∀ p : Nat × Int, p ∈ clean rows →
        ∃ r ∈ rows, r.dataHora = some p.1 ∧ r.nivel = some p.2 := by
  letI : IsTotal (Nat × Int) (fun a b : Nat × Int => a.1 ≤ b.1) :=
    ⟨fun a b => Nat.le_total a.1 b.1⟩
  letI : IsTrans (Nat × Int) (fun a b : Nat × Int => a.1 ≤ b.1) :=
    ⟨fun _ _ _ hab hbc => Nat.le_trans hab hbc⟩
  refine ⟨List.sorted_insertionSort _ _, List.perm_insertionSort _ _, ?_⟩
  intro p hp
  rw [clean, List.mem_insertionSort] at hp
  obtain ⟨r, hr, hfr⟩ := List.mem_filterMap.1 hp
  refine ⟨r, hr, ?_⟩
  rcases hdh : r.dataHora with _ | t <;> rcases hnv : r.nivel with _ | n <;>
    simp [hdh, hnv] at hfr
  subst hfr
  exact ⟨rfl, rfl⟩

/-- C3: a station whose measurement response has zero rows, or whose series is
empty after cleaning, gets a warning log, no chart, and the loop goes on: the
charts of a run starting at that station are exactly those of the remaining
stations, and both fetches of every remaining station are still attempted. -/
theorem empty_series_logged_and_skipped (cotasRef : RefTable)
    (nome : Option String) (codigo : String) (fr : FetchResult)
    (rows : List DataRow) (rest : List (String × FetchResult))
    (hd : fr.dados = Except.ok rows) :
    (rows = [] →
      (processStation cotasRef nome codigo fr).chart = none
      ∧ LogEvent.semDados codigo ∈ (processStation cotasRef nome codigo fr).logs)
    ∧ (rows ≠ [] → clean rows = [] →
      (processStation cotasRef nome codigo fr).chart = none
      ∧ LogEvent.semDadosValidos codigo ∈
          (processStation cotasRef nome codigo fr).logs)
    ∧ ((processStation cotasRef nome codigo fr).chart = none →
      (runLoop cotasRef nome ((codigo, fr) :: rest)).2.2 =
        (runLoop cotasRef (processStation cotasRef nome codigo fr).nomeDepois
          rest).2.2
      ∧ (runLoop cotasRef nome ((codigo, fr) :: rest)).1 =
          [FetchAttempt.inventario codigo, FetchAttempt.dados codigo]
            ++ rest.flatMap fun s =>
                [FetchAttempt.inventario s.1, FetchAttempt.dados s.1]) := by
  refine ⟨?_, ?_, ?_⟩
  · rintro rfl
    constructor <;> simp [processStation, dadosStep, hd]
  · intro hne hcl
    constructor <;>
      simp [processStation, dadosStep, hd, List.isEmpty_iff, hne, hcl]
  · intro hch
    constructor
    · simp [runLoop, hch]
    · simp [runLoop, processStation_attempts_eq, runLoop_attempts_eq]

/-- C3 witness: a station answering an XML body with rows whose levels are all
null, followed by another station; no chart for the first, warning logged,
and the second station's fetches still happen. -/
theorem empty_series_logged_and_skipped_witness :
    (processStation [] none "33333333"
        ⟨Except.ok [], Except.ok [⟨some 1, none⟩]⟩).chart = none
    ∧ LogEvent.semDadosValidos "33333333" ∈
        (processStation [] none "33333333"
          ⟨Except.ok [], Except.ok [⟨some 1, none⟩]⟩).logs
    ∧ (runLoop [] none
        [("33333333", ⟨Except.ok [], Except.ok [⟨some 1, none⟩]⟩),
         ("44444444", ⟨Except.ok [], Except.ok []⟩)]).1 =
      [FetchAttempt.inventario "33333333", FetchAttempt.dados "33333333",
       FetchAttempt.inventario "44444444", FetchAttempt.dados "44444444"] := by
  have h := empty_series_logged_and_skipped [] none "33333333"
    ⟨Except.ok [], Except.ok [⟨some 1, none⟩]⟩ [⟨some 1, none⟩]
    [("44444444", ⟨Except.ok [], Except.ok []⟩)] rfl
  have h2 := h.2.1 (by decide) (by decide)
  exact ⟨h2.1, h2.2, (h.2.2 h2.1).2⟩

/-- C5: the display-name binding is left untouched by a failed or empty
inventory lookup, so for a station with a non-empty cleaned series whose
lookup failed: with no earlier successful lookup (`nome = none`) rendering
aborts inside the per-station handler (code-tagged error log, no chart), and
with an earlier resolved name the chart is produced with that stale name in
its title rather than the station's own code. -/
theorem nome_stale_or_nameerror (cotasRef : RefTable) (nome : Option String)
    (codigo : String) (fr : FetchResult)
    (hinv : (∃ e, fr.inv = Except.error e) ∨ fr.inv = Except.ok []) :
    (processStation cotasRef nome codigo fr).nomeDepois = nome
    ∧ ∀ rows, fr.dados = Except.ok rows → rows ≠ [] → clean rows ≠ [] →
        (nome = none →
          (processStation cotasRef nome codigo fr).chart = none
          ∧ LogEvent.erroCritico codigo ∈
              (processStation cotasRef nome codigo fr).logs)
        ∧ ∀ nm, nome = some nm →
            ∃ ch, (processStation cotasRef nome codigo fr).chart = some ch
              ∧ ch.titulo = mkTitle codigo nm := by
  have hfst : (invResolve nome codigo fr.inv).1 = nome := by
    rcases hinv with ⟨e, he⟩ | he <;> simp [invResolve, he]
  refine ⟨hfst, ?_⟩
  intro rows hd hne hcl
  constructor
  · rintro rfl
    constructor <;>
      simp [processStation, dadosStep, hd, List.isEmpty_iff, hne, hcl, hfst]
  · rintro nm rfl
    refine ⟨renderChart cotasRef codigo nm (clean rows), ?_,
      renderChart_titulo cotasRef codigo nm (clean rows)⟩
    simp [processStation, dadosStep, hd, List.isEmpty_iff, hne, hcl, hfst]

/-- C5 witness: station B's inventory times out after station A resolved
"Rio Claro"; B's chart is produced with A's name in the title, and in a fresh
run with no prior name the same station yields no chart and a critical log. -/
theorem nome_stale_or_nameerror_witness :
    ((processStation [] (some "Rio Claro") "55555555"
        ⟨Except.error "timeout", Except.ok [⟨some 1, some 2⟩]⟩).chart.map
          Chart.titulo) = some (mkTitle "55555555" "Rio Claro")
    ∧ (processStation [] none "55555555"
        ⟨Except.error "timeout", Except.ok [⟨some 1, some 2⟩]⟩).chart = none
    ∧ LogEvent.erroCritico "55555555" ∈
        (processStation [] none "55555555"
          ⟨Except.error "timeout", Except.ok [⟨some 1, some 2⟩]⟩).logs := by
  have ha := nome_stale_or_nameerror [] (some "Rio Claro") "55555555"
    ⟨Except.error "timeout", Except.ok [⟨some 1, some 2⟩]⟩ (Or.inl ⟨"timeout", rfl⟩)
  have hb := nome_stale_or_nameerror [] none "55555555"
    ⟨Except.error "timeout", Except.ok [⟨some 1, some 2⟩]⟩ (Or.inl ⟨"timeout", rfl⟩)
  obtain ⟨ch, hch, ht⟩ :=
    (ha.2 [⟨some 1, some 2⟩] rfl (by decide) (by decide)).2 "Rio Claro" rfl
  have h2 := (hb.2 [⟨some 1, some 2⟩] rfl (by decide) (by decide)).1 rfl
  exact ⟨by rw [hch]; simp only [Option.map_some']; rw [ht], h2.1, h2.2⟩

/-- C4 counterexample: after a metadata (inventory) failure for the very first
station, the series is fetched and non-empty after cleaning, yet rendering is
skipped (no chart): the unresolved name aborts at the title line, so a
metadata failure does not merely degrade the title, and there is no fallback
to the station code alone. -/
theorem metadata_failure_skips_first_station_chart :
    (processStation [] none "60474000"
        ⟨Except.error "timeout", Except.ok [⟨some 1, some 100⟩]⟩).chart = none
    ∧ clean [⟨some 1, some 100⟩] ≠ [] := by
  exact ⟨rfl, by decide⟩

/-- C4 as amended: a metadata lookup that fails or returns no rows is logged
with the station code (error log at line 91, warning at line 88) and does not
block acquisition — the series fetch is always still attempted; it never
makes the title fall back to the station code alone: when no earlier station
resolved a name, the failure is absorbed by the outer per-station error
handler and that station's chart is skipped, and otherwise the chart is
rendered with the most recently resolved name in the title. -/
theorem metadata_failure_absorbed_or_stale_title (cotasRef : RefTable)
    (nome : Option String) (codigo : String) (fr : FetchResult)
    (hinv : (∃ e, fr.inv = Except.error e) ∨ fr.inv = Except.ok []) :
    (processStation cotasRef nome codigo fr).attempts =
      [FetchAttempt.inventario codigo, FetchAttempt.dados codigo]
    ∧ ((∃ e, fr.inv = Except.error e) →
        LogEvent.invError codigo ∈ (processStation cotasRef nome codigo fr).logs)
    ∧ (fr.inv = Except.ok [] →
        LogEvent.invNotFound codigo ∈ (processStation cotasRef nome codigo fr).logs)
    ∧ ∀ rows, fr.dados = Except.ok rows → rows ≠ [] → clean rows ≠ [] →
        (nome = none → (processStation cotasRef nome codigo fr).chart = none
          ∧ LogEvent.erroCritico codigo ∈
              (processStation cotasRef nome codigo fr).logs)
        ∧ ∀ nm, nome = some nm →
            ∃ ch, (processStation cotasRef nome codigo fr).chart = some ch
              ∧ ch.titulo = mkTitle codigo nm := by
  have hfst : (invResolve nome codigo fr.inv).1 = nome := by
    rcases hinv with ⟨e, he⟩ | he <;> simp [invResolve, he]
  refine ⟨rfl, ?_, ?_, ?_⟩
  · rintro ⟨e, he⟩
    exact invError_mem_logs cotasRef nome codigo fr e he
  · intro he
    exact invNotFound_mem_logs cotasRef nome codigo fr he
  intro rows hd hne hcl
  constructor
  · rintro rfl
    constructor <;>
      simp [processStation, dadosStep, hd, List.isEmpty_iff, hne, hcl, hfst]
  · rintro nm rfl
    refine ⟨renderChart cotasRef codigo nm (clean rows), ?_,
      renderChart_titulo cotasRef codigo nm (clean rows)⟩
    simp [processStation, dadosStep, hd, List.isEmpty_iff, hne, hcl, hfst]

/-- C4 amended witness: with a previously resolved name "Rio Verde", a
station whose inventory call errors still gets its series fetched and its
chart rendered, titled with the stale name; a station whose inventory call
succeeds with zero rows gets the line-88 warning and the same stale-name
rendering (here with prior name "Rio Azul"). -/
theorem metadata_failure_absorbed_or_stale_title_witness :
    (processStation [] (some "Rio Verde") "66666666"
        ⟨Except.error "HTTP 500", Except.ok [⟨some 3, some 40⟩]⟩).attempts =
      [FetchAttempt.inventario "66666666", FetchAttempt.dados "66666666"]
    ∧ LogEvent.invError "66666666" ∈
        (processStation [] (some "Rio Verde") "66666666"
          ⟨Except.error "HTTP 500", Except.ok [⟨some 3, some 40⟩]⟩).logs
    ∧ ((processStation [] (some "Rio Verde") "66666666"
          ⟨Except.error "HTTP 500", Except.ok [⟨some 3, some 40⟩]⟩).chart.map
            Chart.titulo) = some (mkTitle "66666666" "Rio Verde")
    ∧ LogEvent.invNotFound "77777777" ∈
        (processStation [] (some "Rio Azul") "77777777"
          ⟨Except.ok [], Except.ok [⟨some 5, some 6⟩]⟩).logs
    ∧ ((processStation [] (some "Rio Azul") "77777777"
          ⟨Except.ok [], Except.ok [⟨some 5, some 6⟩]⟩).chart.map
            Chart.titulo) = some (mkTitle "77777777" "Rio Azul") := by
  have h := metadata_failure_absorbed_or_stale_title [] (some "Rio Verde")
    "66666666" ⟨Except.error "HTTP 500", Except.ok [⟨some 3, some 40⟩]⟩
    (Or.inl ⟨"HTTP 500", rfl⟩)
  have h2 := metadata_failure_absorbed_or_stale_title [] (some "Rio Azul")
    "77777777" ⟨Except.ok [], Except.ok [⟨some 5, some 6⟩]⟩ (Or.inr rfl)
  obtain ⟨ch, hch, ht⟩ :=
    (h.2.2.2 [⟨some 3, some 40⟩] rfl (by decide) (by decide)).2 "Rio Verde" rfl
  obtain ⟨ch2, hch2, ht2⟩ :=
    (h2.2.2.2 [⟨some 5, some 6⟩] rfl (by decide) (by decide)).2 "Rio Azul" rfl
  exact ⟨h.1, h.2.1 ⟨"HTTP 500", rfl⟩,
    by rw [hch]; simp only [Option.map_some']; rw [ht],
    h2.2.2.1 rfl,
    by rw [hch2]; simp only [Option.map_some']; rw [ht2]⟩

/-- Every chart the loop body produces is `renderChart` on a non-empty
cleaned series. -/
theorem chart_eq_renderChart (cotasRef : RefTable) (nome : Option String)
    (codigo : String) (fr : FetchResult) (ch : Chart)
    (h : (processStation cotasRef nome codigo fr).chart = some ch) :
    ∃ nm s, s ≠ [] ∧ ch = renderChart cotasRef codigo nm s := by
  rcases fr with ⟨inv, dados⟩
  rcases dados with e | rows
  · simp [processStation, dadosStep] at h
  · by_cases hne : rows.isEmpty
    · simp [processStation, dadosStep, hne] at h
    · by_cases hcl : (clean rows).isEmpty
      · simp [processStation, dadosStep, hne, hcl] at h
      · rcases hn : (invResolve nome codigo inv).1 with _ | nm
        · simp [processStation, dadosStep, hne, hcl, hn] at h
        · refine ⟨nm, clean rows, by simpa [List.isEmpty_iff] using hcl, ?_⟩
          simp [processStation, dadosStep, hne, hcl, hn] at h
          exact h.symm

/-- C6: a rendered chart has the two horizontal threshold lines exactly when
the station code is in the reference table: then they lie at the row's alert
and flood levels, the legend is drawn and each line label contains the
numeric value; when the code is absent there are no threshold lines and no
legend. -/
theorem threshold_lines_iff_referenced (cotasRef : RefTable)
    (nome : Option String) (codigo : String) (fr : FetchResult) (ch : Chart)
    (h : (processStation cotasRef nome codigo fr).chart = some ch) :
    (∀ r : RefRow, cotasRef.lookup codigo = some r →
        ch.hlines = [(r.alerta, alertaLabel r.alerta),
                     (r.inundacao, inundacaoLabel r.inundacao)]
        ∧ ch.legend = some ["Nível do rio", alertaLabel r.alerta,
                            inundacaoLabel r.inundacao]
        ∧ (∃ p q, alertaLabel r.alerta = p ++ toString r.alerta ++ q)
        ∧ (∃ p q, inundacaoLabel r.inundacao = p ++ toString r.inundacao ++ q))
    ∧ (cotasRef.lookup codigo = none → ch.hlines = [] ∧ ch.legend = none) := by
  obtain ⟨nm, s, _, rfl⟩ := chart_eq_renderChart cotasRef nome codigo fr ch h
  constructor
  · intro r hr
    refine ⟨?_, ?_, ⟨"Alerta (", " cm)", rfl⟩, ⟨"Inundação (", " cm)", rfl⟩⟩ <;>
      simp [renderChart, hr]
  · intro hr
    constructor <;> simp [renderChart, hr]

/-- C6 witness: the concrete table row (alert 150, flood 300) for station
"12345678" produces exactly the two lines at 150 and 300 with labels carrying
the values; in the same run a station absent from the table gets neither
lines nor legend. -/
theorem threshold_lines_iff_referenced_witness :
    ((processStation [("12345678", ⟨150, 300⟩)] none "12345678"
        ⟨Except.ok [⟨"Foo"⟩], Except.ok [⟨some 1, some 100⟩]⟩).chart.map
          Chart.hlines) = some [(150, alertaLabel 150), (300, inundacaoLabel 300)]
    ∧ ((processStation [("12345678", ⟨150, 300⟩)] none "12345678"
        ⟨Except.ok [⟨"Foo"⟩], Except.ok [⟨some 1, some 100⟩]⟩).chart.map
          Chart.legend) =
        some (some ["Nível do rio", alertaLabel 150, inundacaoLabel 300])
    ∧ ((processStation [("12345678", ⟨150, 300⟩)] none "99999999"
        ⟨Except.ok [⟨"Bar"⟩], Except.ok [⟨some 1, some 100⟩]⟩).chart.map
          Chart.hlines) = some []
    ∧ ((processStation [("12345678", ⟨150, 300⟩)] none "99999999"
        ⟨Except.ok [⟨"Bar"⟩], Except.ok [⟨some 1, some 100⟩]⟩).chart.map
          Chart.legend) = some none := by
  have hchA : (processStation [("12345678", ⟨150, 300⟩)] none "12345678"
      ⟨Except.ok [⟨"Foo"⟩], Except.ok [⟨some 1, some 100⟩]⟩).chart =
        some (renderChart [("12345678", ⟨150, 300⟩)] "12345678" "Foo" [(1, 100)]) :=
    by decide
  have hchB : (processStation [("12345678", ⟨150, 300⟩)] none "99999999"
      ⟨Except.ok [⟨"Bar"⟩], Except.ok [⟨some 1, some 100⟩]⟩).chart =
        some (renderChart [("12345678", ⟨150, 300⟩)] "99999999" "Bar" [(1, 100)]) :=
    by decide
  have hA := (threshold_lines_iff_referenced [("12345678", ⟨150, 300⟩)] none
    "12345678" ⟨Except.ok [⟨"Foo"⟩], Except.ok [⟨some 1, some 100⟩]⟩ _ hchA).1
    ⟨150, 300⟩ rfl
  have hB := (threshold_lines_iff_referenced [("12345678", ⟨150, 300⟩)] none
    "99999999" ⟨Except.ok [⟨"Bar"⟩], Except.ok [⟨some 1, some 100⟩]⟩ _ hchB).2 rfl
  refine ⟨?_, ?_, ?_, ?_⟩
  · rw [hchA]; simp only [Option.map_some']; rw [hA.1]
  · rw [hchA]; simp only [Option.map_some']; rw [hA.2.1]
  · rw [hchB]; simp only [Option.map_some']; rw [hB.1]
  · rw [hchB]; simp only [Option.map_some']; rw [hB.2]

/-- C7: the loaded station list is exactly the input lines with surrounding
whitespace stripped, after excluding blank lines and lines starting with the
comment marker, in order: the comprehension in the code agrees with the
spec's filter-then-strip description on every input file. -/
theorem parseLista_eq_spec_model : ∀ lines, parseLista lines = listaSpecModel lines := by
  intro lines
  induction lines with
  | nil => rfl
  | cons l ls ih =>
      by_cases h1 : strip l = "" <;> by_cases h2 : startswith l "#" <;>
        simp [parseLista, listaSpecModel, List.filterMap_cons, List.filter_cons,
          h1, h2] at ih ⊢ <;> exact ih

/-- Pushing the pair construction through `flatMap`: the fetch attempts of a
station list built by pairing codes with an oracle. -/
theorem flatMap_attempts_map (oracle : String → FetchResult) :
    ∀ codes : List String,
      ((codes.map fun c => (c, oracle c)).flatMap fun s =>
        [FetchAttempt.inventario s.1, FetchAttempt.dados s.1]) =
      codes.flatMap fun c => [FetchAttempt.inventario c, FetchAttempt.dados c]
  | [] => rfl
  | c :: rest => by
      simp only [List.map_cons, List.flatMap_cons, flatMap_attempts_map oracle rest]

/-- C8: a missing station-list file or an empty list after parsing is logged
and ends the run before any station is touched (`fatal` carries no fetch
attempt and no chart); with a non-empty list the run always reaches the end
of the loop normally, whatever the per-station outcomes, having attempted
both fetches of every code. -/
theorem fatal_exit_iff_bad_lista (cotasRef : RefTable)
    (oracle : String → FetchResult) :
    runProgram cotasRef none oracle = RunOutcome.fatal [LogEvent.listaNaoEncontrada]
    ∧ (∀ lines, parseLista lines = [] →
        runProgram cotasRef (some lines) oracle =
          RunOutcome.fatal [LogEvent.listaVazia])
    ∧ ∀ lines, parseLista lines ≠ [] →
        runProgram cotasRef (some lines) oracle =
          RunOutcome.normal
            ((parseLista lines).flatMap fun c =>
              [FetchAttempt.inventario c, FetchAttempt.dados c])
            (runLoop cotasRef none
              ((parseLista lines).map fun c => (c, oracle c))).2.1
            (runLoop cotasRef none
              ((parseLista lines).map fun c => (c, oracle c))).2.2 := by
  refine ⟨rfl, ?_, ?_⟩
  · intro lines h
    simp [runProgram, h]
  · intro lines h
    simp only [runProgram, List.isEmpty_iff, if_neg h]
    rw [runLoop_attempts_eq, flatMap_attempts_map]

/-- C8 witness: a file of only comments and blanks exits fatally; the
one-station file runs the loop to completion with its two fetch attempts. -/
theorem fatal_exit_iff_bad_lista_witness :
    runProgram [] none (fun _ => ⟨Except.ok [], Except.ok []⟩) =
      RunOutcome.fatal [LogEvent.listaNaoEncontrada]
    ∧ runProgram [] (some ["# comment", "   "]) (fun _ => ⟨Except.ok [], Except.ok []⟩) =
      RunOutcome.fatal [LogEvent.listaVazia]
    ∧ runProgram [] (some ["60474000"]) (fun _ => ⟨Except.ok [], Except.ok []⟩) =
      RunOutcome.normal
        [FetchAttempt.inventario "60474000", FetchAttempt.dados "60474000"]
        (runLoop [] none [("60474000", ⟨Except.ok [], Except.ok []⟩)]).2.1
        (runLoop [] none [("60474000", ⟨Except.ok [], Except.ok []⟩)]).2.2 := by
  have h := fatal_exit_iff_bad_lista [] (fun _ => ⟨Except.ok [], Except.ok []⟩)
  have h3 := h.2.2 ["60474000"] (by decide)
  exact ⟨h.1, h.2.1 ["# comment", "   "] (by decide), h3⟩

/-- C9: every chart rendered for a station is targeted at the fixed output
directory under `<code>.png`; the path depends only on the code, so a second
run's chart for the same code goes to the same path and `savefig` replaces
the earlier artifact instead of creating a second one, and creating the
output directory is idempotent. -/
theorem artifact_path_fixed_per_codigo (cotasRef1 cotasRef2 : RefTable)
    (nome1 nome2 : Option String) (codigo : String) (fr1 fr2 : FetchResult)
    (ch1 ch2 : Chart)
    (h1 : (processStation cotasRef1 nome1 codigo fr1).chart = some ch1)
    (h2 : (processStation cotasRef2 nome2 codigo fr2).chart = some ch2) :
    ch1.fileName = diretorioGraficos ++ "/" ++ codigo ++ ".png"
    ∧ ch2.fileName = ch1.fileName
    ∧ (∀ fs, saveFig (saveFig fs ch1) ch2 = saveFig fs ch2)
    ∧ ∀ dirs, makedirs (makedirs dirs diretorioGraficos) diretorioGraficos =
        makedirs dirs diretorioGraficos := by
  obtain ⟨nm1, s1, _, rfl⟩ := chart_eq_renderChart _ _ _ _ _ h1
  obtain ⟨nm2, s2, _, rfl⟩ := chart_eq_renderChart _ _ _ _ _ h2
  have e1 := renderChart_fileName cotasRef1 codigo nm1 s1
  have e2 := renderChart_fileName cotasRef2 codigo nm2 s2
  refine ⟨e1, by rw [e1, e2], ?_, ?_⟩
  · intro fs
    funext p
    simp only [saveFig, e1, e2]
    by_cases hp : p = nomeArquivoGrafico codigo <;> simp [hp]
  · intro dirs
    by_cases hd : diretorioGraficos ∈ dirs <;> simp [makedirs, hd]

/-- C9 witness: two runs for code "60474000" with different reference tables,
names and data still target `Graficos_Saida/60474000.png`, overwriting. -/
theorem artifact_path_fixed_per_codigo_witness :
    (renderChart [("60474000", ⟨1, 2⟩)] "60474000" "X" [(1, 2)]).fileName =
      diretorioGraficos ++ "/" ++ "60474000" ++ ".png"
    ∧ (renderChart [] "60474000" "Y" [(9, 9)]).fileName =
      (renderChart [("60474000", ⟨1, 2⟩)] "60474000" "X" [(1, 2)]).fileName
    ∧ saveFig (saveFig (fun _ => none)
          (renderChart [("60474000", ⟨1, 2⟩)] "60474000" "X" [(1, 2)]))
          (renderChart [] "60474000" "Y" [(9, 9)]) =
        saveFig (fun _ => none) (renderChart [] "60474000" "Y" [(9, 9)])
    ∧ makedirs (makedirs [] diretorioGraficos) diretorioGraficos =
        makedirs [] diretorioGraficos := by
  have h := artifact_path_fixed_per_codigo [("60474000", ⟨1, 2⟩)] []
    (some "X") (some "Y") "60474000"
    ⟨Except.ok [⟨"X"⟩], Except.ok [⟨some 1, some 2⟩]⟩
    ⟨Except.ok [⟨"Y"⟩], Except.ok [⟨some 9, some 9⟩]⟩
    (renderChart [("60474000", ⟨1, 2⟩)] "60474000" "X" [(1, 2)])
    (renderChart [] "60474000" "Y" [(9, 9)])
    (by decide) (by decide)
  exact ⟨h.1, h.2.1, h.2.2.1 (fun _ => none), h.2.2.2 []⟩

theorem digitChar_lt_ten_isDigit : ∀ k, k < 10 → (Nat.digitChar k).isDigit = true := by
  intro k hk
  interval_cases k <;> rfl

theorem pad2_digits (n : Nat) : (pad2 n).data.all Char.isDigit = true := by
  simp only [pad2, String.mk, List.all_cons, List.all_nil, Bool.and_true]
  rw [digitChar_lt_ten_isDigit _ (Nat.mod_lt _ (by decide)),
    digitChar_lt_ten_isDigit _ (Nat.mod_lt _ (by decide))]
  rfl

theorem pad4_digits (n : Nat) : (pad4 n).data.all Char.isDigit = true := by
  simp only [pad4, String.mk, List.all_cons, List.all_nil, Bool.and_true]
  rw [digitChar_lt_ten_isDigit _ (Nat.mod_lt _ (by decide)),
    digitChar_lt_ten_isDigit _ (Nat.mod_lt _ (by decide)),
    digitChar_lt_ten_isDigit _ (Nat.mod_lt _ (by decide)),
    digitChar_lt_ten_isDigit _ (Nat.mod_lt _ (by decide))]
  rfl

/-- C10: the measurement query window is start = today − 7 days and end =
today + 1 day at day granularity, both appearing in the request URL in
`DD-MM-YYYY` form (two all-digit characters for the day, a dash, two for the
month, a dash, four for the year), and the series request's timeout (60s)
exceeds the metadata request's (30s). -/
theorem consulta_window_and_timeouts (codigo : String) (hoje : Nat)
    (h7 : 7 ≤ hoje) :
    dataInicioConsulta hoje = strftimeDMY (hoje - 7)
    ∧ dataFimConsulta hoje = strftimeDMY (hoje + 1)
    ∧ urlDados codigo hoje =
        "https://telemetriaws1.ana.gov.br/ServiceANA.asmx/DadosHidrometeorologicos?codEstacao="
          ++ codigo ++ "&dataInicio=" ++ strftimeDMY (hoje - 7)
          ++ "&dataFim=" ++ strftimeDMY (hoje + 1)
    ∧ (∀ n, strftimeDMY n =
          pad2 (civilOfEpochDay n).2.2 ++ "-" ++ pad2 (civilOfEpochDay n).2.1
            ++ "-" ++ pad4 (civilOfEpochDay n).1
        ∧ (pad2 (civilOfEpochDay n).2.2).length = 2
        ∧ (pad2 (civilOfEpochDay n).2.1).length = 2
        ∧ (pad4 (civilOfEpochDay n).1).length = 4
        ∧ (pad2 (civilOfEpochDay n).2.2).data.all Char.isDigit = true
        ∧ (pad2 (civilOfEpochDay n).2.1).data.all Char.isDigit = true
        ∧ (pad4 (civilOfEpochDay n).1).data.all Char.isDigit = true)
    ∧ timeoutInventario < timeoutDados := by
  refine ⟨rfl, rfl, rfl, ?_, by decide⟩
  intro n
  exact ⟨rfl, rfl, rfl, rfl, pad2_digits _, pad2_digits _, pad4_digits _⟩

/-- C10 witness: on 2025-10-12 (epoch day 20373) the start date is the
2025-10-05 and the end date 2025-10-13, both rendered `DD-MM-YYYY`. -/
theorem consulta_window_and_timeouts_witness :
    dataInicioConsulta 20373 = strftimeDMY (20373 - 7)
    ∧ dataFimConsulta 20373 = strftimeDMY (20373 + 1)
    ∧ dataInicioConsulta 20373 = "05-10-2025"
    ∧ dataFimConsulta 20373 = "13-10-2025"
    ∧ timeoutInventario < timeoutDados := by
  have h := consulta_window_and_timeouts "60474000" 20373 (by decide)
  exact ⟨h.1, h.2.1, by decide, by decide, h.2.2.2.2⟩

end Alertas
